import Mathlib

/-
Verification development for the AIP flow-graph-to-workflow compiler
(src/metaflow/plugins/aip/aip.py).

The definitions below are a shallow embedding of the Python source:
  * `FlowNode`/`FlowGraph` model `metaflow.graph.DAGNode` objects as consumed
    by this compiler (fields `name`, `type`, `out_funcs`, `in_funcs`,
    `matching_join`, `split_parents`, `decorators`).
  * `walk` embeds the recursive `build_kfp_dag` closure of
    `create_kfp_pipeline_from_flow_graph` (aip.py lines 1185-1332), restricted
    to its emission structure: the `visited` dict becomes the ordered list of
    emitted step names; a fuel parameter makes the recursion total, with
    `none` standing for a Python runtime error (IndexError / KeyError) or fuel
    exhaustion.  Theorems are stated for runs that return `some`.
  * `getRetries`, `getMinutesBetweenRetries`, `getRetryBackoffFactor` embed
    `_get_retries`, `_get_minutes_between_retries`, `_get_retry_backoff_factor`.
  * `buildAipComponent`/`createAipComponents` embed `build_aip_component` and
    `_create_aip_components_from_graph` (the UNSUPPORTED_DECORATORS check).
  * `weaveExitHandler`, `attachSynchronization`, `createWorkflowYaml`,
    `configMap`, `runWorkflowOnArgo` embed the corresponding parts of
    `_create_workflow_yaml`, `_config_map` and `run_workflow_on_argo`, over a
    `Workflow` record that models the slice of the Argo document the claims
    mention (entrypoint, onExit, dag templates and their task lists,
    spec.synchronization).  Exceptions become `Except.error`.
  * `createResourceBasedNodeTypeToleration` / `setContainerTolerations` embed
    `_create_resource_based_node_type_toleration` and the toleration logic of
    `_set_container_resources`.
  * `wireDependencies` embeds the dependency wiring pass of
    `kfp_pipeline_from_flow` (aip.py lines 1357-1368).
-/

namespace Aip

/-- Closed set of decorator classes relevant to `isinstance` checks in
aip.py.  `UNSUPPORTED_DECORATORS = (BatchDecorator, ScheduleDecorator)`
(aip.py lines 70-73); the other classes are the ones the compiler
dispatches on. -/
inductive DecoClass where
  | batch
  | schedule
  | aipInternal
  | accelerator
  | interruptible
  | environment
  | resources
  | generic
deriving DecidableEq

/-- Value of a decorator attribute as far as `_get_minutes_between_retries`
inspects it: a number (`isinstance(val, numbers.Number)`) or a string. -/
inductive AttrVal where
  | num (n : Int)
  | str (s : String)
deriving DecidableEq

/-- A step decorator, carrying exactly the data aip.py reads off it:
`deco.name`, its class (for `isinstance` checks), the result of
`deco.step_task_retry_count()` as the pair (user_code_retries,
error_retries), and the `minutes_between_retries` / `retry_backoff_factor`
attributes of retry decorators.  `retry_backoff_factor` is total because the
retry decorator declares a default for it, and `_get_retry_backoff_factor`
applies `int(...)` to it unconditionally. -/
structure Decorator where
  name : String
  cls : DecoClass
  step_task_retry_count : Nat × Nat
  minutes_between_retries : Option AttrVal
  retry_backoff_factor : Int
deriving DecidableEq

/-- A node of the input flow graph (`metaflow.graph.DAGNode`), with the
fields `build_kfp_dag` and the component builder read.  `matching_join` is
`none` on nodes where the Python attribute is `None`. -/
structure FlowNode where
  name : String
  type : String
  out_funcs : List String
  in_funcs : List String
  matching_join : Option String
  split_parents : List String
  decorators : List Decorator
deriving DecidableEq

/-- The input graph: the list of node ids (`self.graph.nodes`) and the lookup
`self.graph[step]`.  The lookup is total here; the compiler assumes upstream
validation, and lookups of names outside `nodes` never decide the claims. -/
structure FlowGraph where
  nodes : List String
  node : String → FlowNode

/-- `_get_retries` (aip.py lines 553-567): one pass over the node's
decorators taking the maximum of the user-code retry counts and the maximum
of the error retry counts independently, returning
`(max_user_code_retries, max_user_code_retries + max_error_retries)`. -/
def getRetries (node : FlowNode) : Nat × Nat :=
  let m :=
    node.decorators.foldl
      (fun acc d =>
        (Nat.max acc.1 d.step_task_retry_count.1,
         Nat.max acc.2 d.step_task_retry_count.2))
      (0, 0)
  (m.1, m.1 + m.2)

/-- Spec phrase "the maximum user-code-retry count" across the node's
decorators. -/
def maxUserCodeRetries (node : FlowNode) : Nat :=
  node.decorators.foldl (fun a d => Nat.max a d.step_task_retry_count.1) 0

/-- The maximum error-retry count across the node's decorators (the second
component of `step_task_retry_count`). -/
def maxErrorRetries (node : FlowNode) : Nat :=
  node.decorators.foldl (fun a d => Nat.max a d.step_task_retry_count.2) 0

/-- Written from the spec's words for claim C2: "the maximum total-retry
count" taken across the retry-capable decorators, a decorator's total-retry
count being its user-code retries plus its error retries.  To be compared
with the second component of `getRetries`. -/
def specTotalRetriesMaxOfTotals (node : FlowNode) : Nat :=
  node.decorators.foldl
    (fun a d => Nat.max a (d.step_task_retry_count.1 + d.step_task_retry_count.2)) 0

/-- Python `str.isdecimal` on the strings that occur here: nonempty and all
digits. -/
def isDecimalString (s : String) : Bool :=
  !s.toList.isEmpty && s.toList.all Char.isDigit

/-- The `f"{val}m" if is_number else val` formatting step of
`_get_minutes_between_retries` applied to the attribute value. -/
def formatMinutes (v : Option AttrVal) : Option String :=
  match v with
  | none => none
  | some (AttrVal.num n) => some (toString n ++ "m")
  | some (AttrVal.str s) => if isDecimalString s then some (s ++ "m") else some s

/-- `_get_minutes_between_retries` (aip.py lines 569-578): filters the
node's decorators for `deco.name == "retry"` and reads
`retry_deco[0].attributes.get("minutes_between_retries")`; returns `None`
when there is no retry decorator. -/
def getMinutesBetweenRetries (node : FlowNode) : Option String :=
  match node.decorators.filter (fun d => d.name == "retry") with
  | [] => none
  | d :: _ => formatMinutes d.minutes_between_retries

/-- `_get_retry_backoff_factor` (aip.py lines 580-586): filters for retry
decorators and returns `int(retry_deco[0].attributes.get("retry_backoff_factor"))`,
or `None` when there is no retry decorator. -/
def getRetryBackoffFactor (node : FlowNode) : Option Int :=
  match node.decorators.filter (fun d => d.name == "retry") with
  | [] => none
  | d :: _ => some d.retry_backoff_factor

/-- Written from the spec's words for claim C3: the backoff interval taken
from the *last* retry-kind decorator present on the node.  To be compared
with `getMinutesBetweenRetries`. -/
def specMinutesFromLastRetry (node : FlowNode) : Option String :=
  match (node.decorators.filter (fun d => d.name == "retry")).getLast? with
  | none => none
  | some d => formatMinutes d.minutes_between_retries

/-- Written from the spec's words for claim C3: the backoff factor taken
from the *last* retry-kind decorator present on the node. -/
def specBackoffFromLastRetry (node : FlowNode) : Option Int :=
  match (node.decorators.filter (fun d => d.name == "retry")).getLast? with
  | none => none
  | some d => some d.retry_backoff_factor

/-- `isinstance(deco, UNSUPPORTED_DECORATORS)` with
`UNSUPPORTED_DECORATORS = (BatchDecorator, ScheduleDecorator)`. -/
def isUnsupportedDeco (d : Decorator) : Bool :=
  d.cls == DecoClass.batch || d.cls == DecoClass.schedule

/-- The component descriptor `build_aip_component` produces, restricted to
the retry fields the claims mention. -/
structure AIPComponent where
  step_name : String
  user_code_retries : Nat
  total_retries : Nat
  minutes_between_retries : Option String
  retry_backoff_factor : Option Int
deriving DecidableEq

/-- `build_aip_component` (aip.py lines 705-759): raises `AIPException` on
the first decorator that is an instance of `UNSUPPORTED_DECORATORS`, before
computing any retry or resource fields; otherwise builds the component. -/
def buildAipComponent (node : FlowNode) : Except String AIPComponent :=
  match node.decorators.find? isUnsupportedDeco with
  | some _ =>
      Except.error (node.name ++ " step has a decorator that is not yet supported by aip")
  | none =>
      Except.ok
        { step_name := node.name
          user_code_retries := (getRetries node).1
          total_retries := (getRetries node).2
          minutes_between_retries := getMinutesBetweenRetries node
          retry_backoff_factor := getRetryBackoffFactor node }

/-- The per-step loop of `_create_aip_components_from_graph` (aip.py lines
761-768): builds a component for every node id, propagating the first
exception. -/
def buildComponentsList (g : FlowGraph) : List String → Except String (List (String × AIPComponent))
  | [] => Except.ok []
  | s :: rest =>
    match buildAipComponent (g.node s) with
    | Except.error e => Except.error e
    | Except.ok comp =>
      match buildComponentsList g rest with
      | Except.error e => Except.error e
      | Except.ok others => Except.ok ((s, comp) :: others)

/-- `_create_aip_components_from_graph`: one component per graph node. -/
def createAipComponents (g : FlowGraph) : Except String (List (String × AIPComponent)) :=
  buildComponentsList g g.nodes

/-- The two recursion shapes of `build_kfp_dag`: a call on a node, and the
`for step in node.out_funcs` loop over the remaining children. -/
inductive WalkCall where
  | node (name : String)
  | children (cs : List String)

/-- `build_kfp_dag` (aip.py lines 1185-1332), reduced to its emission
structure.  The state is the ordered list of names inserted into `visited`.

  * A node already in `visited` returns immediately.
  * Otherwise the node is emitted (appended to `visited`).
  * A `foreach` node recurses into its single child `out_funcs[0]` inside
    the `ParallelFor` construct and then recurses into `matching_join`,
    compiling the join after the construct closes.
  * Any other node iterates over `out_funcs`; on the first child that is a
    `join` whose last split parent is a `foreach`, the Python code executes
    `return`, halting the loop (that join belongs to the enclosing
    `ParallelFor` handling).

`none` models a Python runtime error (`out_funcs[0]` or
`split_parents[-1]` on an empty list, a `None` matching_join) or exhausted
fuel; the fuel decreases on every recursive call. -/
def walk (g : FlowGraph) : Nat → WalkCall → List String → Option (List String)
  | 0, _, _ => none
  | Nat.succ fuel, WalkCall.node name, visited =>
    if name ∈ visited then
      some visited
    else
      let nd := g.node name
      let v1 := visited ++ [name]
      if nd.type = "foreach" then
        match nd.out_funcs with
        | [] => none
        | next :: _ =>
          match walk g fuel (WalkCall.node next) v1 with
          | none => none
          | some v2 =>
            match nd.matching_join with
            | none => none
            | some j => walk g fuel (WalkCall.node j) v2
      else
        walk g fuel (WalkCall.children nd.out_funcs) v1
  | Nat.succ _, WalkCall.children [], visited => some visited
  | Nat.succ fuel, WalkCall.children (c :: rest), visited =>
    let cn := g.node c
    if cn.type = "join" then
      match cn.split_parents.getLast? with
      | none => none
      | some sp =>
        if (g.node sp).type = "foreach" then
          some visited
        else
          match walk g fuel (WalkCall.node c) visited with
          | none => none
          | some v => walk g fuel (WalkCall.children rest) v
    else
      match walk g fuel (WalkCall.node c) visited with
      | none => none
      | some v => walk g fuel (WalkCall.children rest) v

/-- Python's substring test `pat in s` on strings. -/
def containsSubstr (s pat : String) : Bool :=
  s.toList.tails.any (fun t => pat.toList.isPrefixOf t)

/-- One task entry of a dag template in the emitted Argo document. -/
structure DagTask where
  name : String
  template : String
  dependencies : List String
  «when» : Option String
deriving DecidableEq

/-- One template of the emitted Argo document, restricted to its name and
(for dag templates) its task list. -/
structure Template where
  name : String
  tasks : List DagTask
deriving DecidableEq

/-- The `spec.synchronization.semaphore.configMapKeyRef` reference
(aip.py lines 305-313). -/
structure SemaphoreRef where
  configMapName : String
  key : String
deriving DecidableEq

/-- The slice of the Argo workflow document the claims mention. -/
structure Workflow where
  entrypoint : String
  onExit : Option String
  templates : List Template
  synchronization : Option SemaphoreRef
deriving DecidableEq

/-- The auxiliary ConfigMap document built by `_config_map`. -/
structure ConfigMapDoc where
  name : String
  data : List (String × String)
deriving DecidableEq

/-- The compiler inputs that drive exit-handler weaving and naming:
`self.name`, `self.notify`, `self.notify_on_success`,
`self.sqs_url_on_error` (as a presence flag: Python truthiness), and the
user-defined `exit_handler` flow decorator with its resolved
`(on_success, on_failure)` attributes (both default `True` when absent,
per `attributes.get(..., True)`). -/
structure PipelineConfig where
  selfName : String
  notify : Bool
  notifyOnSuccess : Bool
  sqsUrlOnError : Bool
  udfHandler : Option (Bool × Bool)
deriving DecidableEq

/-- `self._exit_handler_created = (notify_op or sqs_op or udf_op) is not None`
(aip.py lines 1334-1348): the notify op exists iff `self.notify`, the sqs op
iff `self.sqs_url_on_error`, the udf op iff an `exit_handler` flow decorator
exists. -/
def exitHandlerCreated (cfg : PipelineConfig) : Bool :=
  cfg.notify || cfg.sqsUrlOnError || cfg.udfHandler.isSome

/-- The literal `{{workflow.status}} != 'Succeeded'` (braces and quotes
written as escapes). -/
def whenNotSucceeded : String :=
  "\x7b\x7bworkflow.status\x7d\x7d != \x27Succeeded\x27"

/-- The literal `{{workflow.status}} == 'Succeeded'`. -/
def whenSucceeded : String :=
  "\x7b\x7bworkflow.status\x7d\x7d == \x27Succeeded\x27"

/-- The first template with the given name:
`[t for t in workflow["spec"]["templates"] if t["name"] == name][0]`,
`none` standing for the `IndexError` when there is no match. -/
def findTemplate (w : Workflow) (n : String) : Option Template :=
  w.templates.find? (fun t => t.name == n)

/-- In-place mutation of the first template with the given name, as the
Python code's aliasing of `entrypoint_template` performs it. -/
def replaceFirstTemplate : List Template → String → Template → List Template
  | [], _, _ => []
  | t :: rest, n, y =>
    if t.name == n then y :: rest else t :: replaceFirstTemplate rest n y

/-- The `udf_handler` branch of the weave (aip.py lines 400-421): builds the
`user-defined-exit-handler` task with its `when` condition, or raises when
both `on_success` and `on_failure` are false. -/
def udfExitTasks (udf : Option (Bool × Bool)) : Except String (List DagTask) :=
  match udf with
  | none => Except.ok []
  | some (onSuccess, onFailure) =>
    if onSuccess && onFailure then
      Except.ok [{ name := "user-defined-exit-handler",
                   template := "user-defined-exit-handler",
                   dependencies := [], «when» := none }]
    else if onSuccess then
      Except.ok [{ name := "user-defined-exit-handler",
                   template := "user-defined-exit-handler",
                   dependencies := [], «when» := some whenSucceeded }]
    else if onFailure then
      Except.ok [{ name := "user-defined-exit-handler",
                   template := "user-defined-exit-handler",
                   dependencies := [], «when» := some whenNotSucceeded }]
    else
      Except.error "on_success and on_failure cannot both be False"

/-- The exit-handler weaving step of `_create_workflow_yaml` (aip.py lines
323-421).  When `self._exit_handler_created`: find the entrypoint template,
drop every task whose name contains `"exit-handler"` from its dag, append a
new `exit-handler` template holding the configured handler tasks (sqs, then
notify, then the user-defined handler, in source order), and set
`spec.onExit` to `exit-handler`.  A raised `AIPException` is an
`Except.error`; the mutated dict never escapes the Python function then. -/
def weaveExitHandler (w : Workflow) (cfg : PipelineConfig) : Except String Workflow :=
  if exitHandlerCreated cfg = false then
    Except.ok w
  else
    match findTemplate w w.entrypoint with
    | none => Except.error "entrypoint template not found"
    | some entry =>
      let filteredEntry : Template :=
        { name := entry.name,
          tasks := entry.tasks.filter (fun t => !(containsSubstr t.name "exit-handler")) }
      let sqsTasks : List DagTask :=
        if cfg.sqsUrlOnError then
          [{ name := "sqs-exit-handler", template := "sqs-exit-handler",
             dependencies := [], «when» := some whenNotSucceeded }]
        else []
      let notifyTasks : List DagTask :=
        if cfg.notify then
          [{ name := "notify-email-exit-handler", template := "notify-email-exit-handler",
             dependencies := [],
             «when» := if cfg.notifyOnSuccess then none else some whenNotSucceeded }]
        else []
      match udfExitTasks cfg.udfHandler with
      | Except.error e => Except.error e
      | Except.ok udfTasksList =>
        Except.ok
          { entrypoint := w.entrypoint,
            onExit := some "exit-handler",
            templates :=
              replaceFirstTemplate w.templates w.entrypoint filteredEntry ++
                [{ name := "exit-handler",
                   tasks := sqsTasks ++ notifyTasks ++ udfTasksList }],
            synchronization := w.synchronization }

/-- Collapse runs of dashes, as `re.sub('-+', '-', ...)` does. -/
def collapseDashes : List Char → List Char
  | [] => []
  | [c] => [c]
  | a :: b :: rest =>
    if a = '-' && b = '-' then collapseDashes (b :: rest)
    else a :: collapseDashes (b :: rest)

/-- Strip leading and trailing dashes (`.lstrip('-').rstrip('-')`). -/
def stripDashes (l : List Char) : List Char :=
  ((l.dropWhile (fun c => c = '-')).reverse.dropWhile (fun c => c = '-')).reverse

/-- ASCII lower-casing of one character, as `str.lower` performs it on the
names that occur here. -/
def lowerChar (c : Char) : Char :=
  if 'A' ≤ c && c ≤ 'Z' then Char.ofNat (c.toNat + 32) else c

/-- Modelled from the interface of the external kfp library:
`kfp.dsl._pipeline_param.sanitize_k8s_name` lower-cases the name, turns
every run of characters outside `[-0-9a-z]` into a dash, collapses dash
runs and strips leading/trailing dashes.  The claims only rely on both
call sites applying this same function. -/
def sanitizeK8sName (name : String) : String :=
  let lowered := name.toList.map lowerChar
  let replaced := lowered.map (fun c =>
    if ('a' ≤ c && c ≤ 'z') || ('0' ≤ c && c ≤ '9') || c = '-' then c else '-')
  String.mk (stripDashes (collapseDashes replaced))

/-- The semaphore block of `_create_workflow_yaml` (aip.py lines 305-313):
when `max_run_concurrency and max_run_concurrency > 0`, attach
`spec.synchronization.semaphore.configMapKeyRef` with the k8s-sanitized
workflow name (`name if name else self.name`) and the fixed key
`max_run_concurrency`. -/
def attachSynchronization (w : Workflow) (maxRunConcurrency : Option Int)
    (nameArg : Option String) (selfName : String) : Workflow :=
  match maxRunConcurrency with
  | none => w
  | some c =>
    if 0 < c then
      let chosenName : String :=
        match nameArg with
        | some n => n
        | none => selfName
      let sem : SemaphoreRef :=
        { configMapName := sanitizeK8sName chosenName, key := "max_run_concurrency" }
      { w with synchronization := some sem }
    else w

/-- `_create_workflow_yaml` (aip.py lines 250-423) at the granularity the
claims need.  `baseWorkflow` stands for the document the external
`kfp.compiler.Compiler()._create_workflow` call produced from the pipeline
function; before that call runs, `_create_aip_components_from_graph` has
built every component, so an unsupported decorator aborts here first.  Then
the output `kind` is checked (`NotImplementedError` otherwise), the
synchronization semaphore is attached, and the exit handlers are woven. -/
def createWorkflowYaml (g : FlowGraph) (cfg : PipelineConfig) (baseWorkflow : Workflow)
    (kind : String) (maxRunConcurrency : Option Int) (nameArg : Option String) :
    Except String Workflow :=
  match createAipComponents g with
  | Except.error e => Except.error e
  | Except.ok _ =>
    if kind = "Workflow" ∨ kind = "WorkflowTemplate" then
      weaveExitHandler
        (attachSynchronization baseWorkflow maxRunConcurrency nameArg cfg.selfName) cfg
    else
      Except.error ("Unsupported output format " ++ kind ++ ".")

/-- `_config_map` (aip.py lines 435-446): `if not max_run_concurrency or
max_run_concurrency <= 0: raise AIPException(...)`, else the ConfigMap
document with the decimal string of the limit under the fixed key. -/
def configMap (workflowName : String) (maxRunConcurrency : Option Int) :
    Except String ConfigMapDoc :=
  match maxRunConcurrency with
  | none => Except.error "max_run_concurrency=None must be > 0."
  | some c =>
    if c ≤ 0 then
      Except.error ("max_run_concurrency=" ++ toString c ++ " must be > 0.")
    else
      Except.ok { name := workflowName,
                  data := [("max_run_concurrency", toString c)] }

/-- `run_workflow_on_argo` (aip.py lines 480-510): build the Workflow-kind
manifest (with `name=None`, so the semaphore is keyed by the sanitized
`self.name`), then build the ConfigMap for `sanitize_k8s_name(self.name)`;
only if both succeed are they handed to the Argo client. -/
def runWorkflowOnArgo (g : FlowGraph) (cfg : PipelineConfig) (baseWorkflow : Workflow)
    (maxRunConcurrency : Option Int) : Except String (Workflow × ConfigMapDoc) :=
  match createWorkflowYaml g cfg baseWorkflow "Workflow" maxRunConcurrency none with
  | Except.error e => Except.error e
  | Except.ok wf =>
    match configMap (sanitizeK8sName cfg.selfName) maxRunConcurrency with
    | Except.error e => Except.error e
    | Except.ok cm => Except.ok (wf, cm)

/-- A scheduling toleration (`V1Toleration`). -/
structure Toleration where
  effect : String
  key : String
  operator : String
  value : String
deriving DecidableEq

/-- The toleration for the high-resource node pool
(`_create_resource_based_node_type_toleration`, aip.py lines 810-815). -/
def highResourceToleration : Toleration :=
  { effect := "NoSchedule", key := "node.k8s.zgtools.net/purpose",
    operator := "Equal", value := "high-memory" }

/-- The toleration for spot capacity added for interruptible steps
(aip.py lines 921-930). -/
def spotToleration : Toleration :=
  { effect := "NoSchedule", key := "node.k8s.zgtools.net/capacity-type",
    operator := "Equal", value := "spot" }

/-- `_create_resource_based_node_type_toleration` (aip.py lines 770-817):
fixed thresholds of 16 GB memory and 8 vCPU; at or above either threshold
the high-resource toleration is returned, below both nothing is. -/
def createResourceBasedNodeTypeToleration (cpu : ℚ) (memory : ℚ) : Option Toleration :=
  let memoryThreshold : ℚ := 16
  let cpuThreshold : ℚ := 8
  if memoryThreshold ≤ memory ∨ cpuThreshold ≤ cpu then
    some highResourceToleration
  else
    none

/-- The inputs of the toleration logic of `_set_container_resources`
(aip.py lines 839-942): whether an accelerator decorator is present and its
`type` attribute, whether an interruptible decorator is present, whether
`"gpu"` is a key of the resource requirements, and the numeric values
`_get_cpu_number(rr.get("cpu", "0"))` and
`_get_resource_number(rr.get("memory", "0"))` (memory in GB) that the
external kfp helpers parse out of the requirement strings. -/
structure ComponentScheduling where
  acceleratorDeco : Option (Option String)
  interruptibleDeco : Bool
  hasGpu : Bool
  cpuNumber : ℚ
  memoryNumber : ℚ

/-- The tolerations `_set_container_resources` adds to the container op, in
source order: the accelerator toleration when an accelerator decorator with
a type is present; otherwise, when no GPU is requested, the resource-based
toleration if the thresholds are met; and additionally the spot toleration
for interruptible steps. -/
def setContainerTolerations (c : ComponentScheduling) : List Toleration :=
  (match c.acceleratorDeco with
   | some acceleratorType =>
     (match acceleratorType with
      | some t =>
        [{ effect := "NoSchedule", key := "k8s.amazonaws.com/accelerator",
           operator := "Equal", value := t }]
      | none => [])
   | none =>
     if c.hasGpu then []
     else
       match createResourceBasedNodeTypeToleration c.cpuNumber c.memoryNumber with
       | some t => [t]
       | none => []) ++
  (if c.interruptibleDeco then [spotToleration] else [])

/-- The inner loop of the dependency wiring pass:
`for parent_step in node.in_funcs: visited[node.name].after(visited[parent_step])`,
plus the propagation to `visited_resource_ops[node.name]` when present
(aip.py lines 1365-1368).  The accumulator collects the `(child, parent)`
pairs of `after` calls on step ops and on resource ops; a missing `visited`
entry is a Python `KeyError`, modelled as `none`. -/
def wireNodeParents (step : String) (parents : List String)
    (visited vro : List String)
    (acc : List (String × String) × List (String × String)) :
    Option (List (String × String) × List (String × String)) :=
  match parents with
  | [] => some acc
  | p :: rest =>
    if step ∈ visited ∧ p ∈ visited then
      wireNodeParents step rest visited vro
        (acc.1 ++ [(step, p)],
         if step ∈ vro then acc.2 ++ [(step, p)] else acc.2)
    else none

/-- The outer loop of the wiring pass over the full node id space
(`for step in self.graph.nodes`, aip.py lines 1363-1368). -/
def wireAll (g : FlowGraph) (visited vro : List String) :
    List String → List (String × String) × List (String × String) →
    Option (List (String × String) × List (String × String))
  | [], acc => some acc
  | s :: rest, acc =>
    match wireNodeParents s (g.node s).in_funcs visited vro acc with
    | none => none
    | some acc1 => wireAll g visited vro rest acc1

/-- The dependency wiring pass of `kfp_pipeline_from_flow` (aip.py lines
1357-1368): for every node and every parent edge, make the child's compiled
op (and its resource op, if any) depend on the parent's compiled op. -/
def wireDependencies (g : FlowGraph) (visited vro : List String) :
    Option (List (String × String) × List (String × String)) :=
  wireAll g visited vro g.nodes ([], [])

/-- The `(child, parent)` pairs the wiring pass is expected to produce for a
suffix of the node list: one per input edge, in iteration order. -/
def wireSpec (g : FlowGraph) : List String → List (String × String)
  | [] => []
  | s :: rest => (g.node s).in_funcs.map (fun p => (s, p)) ++ wireSpec g rest

/-- The `(resource-op, parent)` pairs: the same edges, restricted to nodes
that own a volume-provisioning resource op. -/
def wireResSpec (g : FlowGraph) (vro : List String) : List String → List (String × String)
  | [] => []
  | s :: rest =>
    (if s ∈ vro then (g.node s).in_funcs.map (fun p => (s, p)) else []) ++
      wireResSpec g vro rest

/-- A retry decorator with the given `step_task_retry_count` and attribute
values. -/
def retryDeco (u e : Nat) (mins : Option AttrVal) (bf : Int) : Decorator :=
  { name := "retry", cls := DecoClass.generic, step_task_retry_count := (u, e),
    minutes_between_retries := mins, retry_backoff_factor := bf }

/-- A non-retry, retry-capable decorator (such as `@catch`) reporting the
given retry counts. -/
def catchDeco (u e : Nat) : Decorator :=
  { name := "catch", cls := DecoClass.generic, step_task_retry_count := (u, e),
    minutes_between_retries := none, retry_backoff_factor := 0 }

/-- A `BatchDecorator`, a member of `UNSUPPORTED_DECORATORS`. -/
def batchDeco : Decorator :=
  { name := "batch", cls := DecoClass.batch, step_task_retry_count := (0, 0),
    minutes_between_retries := none, retry_backoff_factor := 0 }

/-- A node with two retry-capable decorators: retry counts (2,3) and (5,0).
Its per-decorator total-retry counts are 5 and 5, while `_get_retries` sums
the independent maxima 5 and 3. -/
def c2CexNode : FlowNode :=
  { name := "train", type := "linear", out_funcs := [], in_funcs := [],
    matching_join := none, split_parents := [],
    decorators := [retryDeco 2 3 none 2, catchDeco 5 0] }

/-- A node with two retry decorators whose backoff attributes differ:
minutes 1 vs 2, factor 2 vs 3. -/
def c3CexNode : FlowNode :=
  { name := "fit", type := "linear", out_funcs := [], in_funcs := [],
    matching_join := none, split_parents := [],
    decorators := [retryDeco 0 0 (some (AttrVal.num 1)) 2,
                   retryDeco 0 0 (some (AttrVal.num 2)) 3] }

/-- Scenario B graph: `start -> split(foreach) -> process -> aggregate(join)
-> end`. -/
def gForeach : FlowGraph :=
  { nodes := ["start", "split", "process", "aggregate", "end"],
    node := fun n =>
      match n with
      | "start" =>
        { name := "start", type := "start", out_funcs := ["split"], in_funcs := [],
          matching_join := none, split_parents := [], decorators := [] }
      | "split" =>
        { name := "split", type := "foreach", out_funcs := ["process"],
          in_funcs := ["start"], matching_join := some "aggregate",
          split_parents := [], decorators := [] }
      | "process" =>
        { name := "process", type := "linear", out_funcs := ["aggregate"],
          in_funcs := ["split"], matching_join := none,
          split_parents := ["split"], decorators := [] }
      | "aggregate" =>
        { name := "aggregate", type := "join", out_funcs := ["end"],
          in_funcs := ["process"], matching_join := none,
          split_parents := ["split"], decorators := [] }
      | _ =>
        { name := "end", type := "end", out_funcs := [], in_funcs := ["aggregate"],
          matching_join := none, split_parents := [], decorators := [] } }

/-- The emission order of the scenario B graph. -/
def gForeachEmitted : List String := ["start", "split", "process", "aggregate", "end"]

/-- Scenario A graph: `start -> middle -> end`, no split/foreach nodes. -/
def gLinear : FlowGraph :=
  { nodes := ["start", "middle", "end"],
    node := fun n =>
      match n with
      | "start" =>
        { name := "start", type := "start", out_funcs := ["middle"], in_funcs := [],
          matching_join := none, split_parents := [], decorators := [] }
      | "middle" =>
        { name := "middle", type := "linear", out_funcs := ["end"],
          in_funcs := ["start"], matching_join := none, split_parents := [],
          decorators := [] }
      | _ =>
        { name := "end", type := "end", out_funcs := [], in_funcs := ["middle"],
          matching_join := none, split_parents := [], decorators := [] } }

/-- A one-node graph with no decorators. -/
def gTrivial : FlowGraph :=
  { nodes := ["start"],
    node := fun _ =>
      { name := "start", type := "start", out_funcs := [], in_funcs := [],
        matching_join := none, split_parents := [], decorators := [] } }

/-- A one-node graph whose step carries a `BatchDecorator`. -/
def gBatch : FlowGraph :=
  { nodes := ["start"],
    node := fun _ =>
      { name := "start", type := "start", out_funcs := [], in_funcs := [],
        matching_join := none, split_parents := [], decorators := [batchDeco] } }

/-- Entrypoint dag task for the sample compiled workflow. -/
def startTask : DagTask :=
  { name := "start", template := "start", dependencies := [], «when» := none }

/-- Second entrypoint dag task, depending on `start`. -/
def endTask : DagTask :=
  { name := "end", template := "end", dependencies := ["start"], «when» := none }

/-- The exit-handler op that the kfp compiler left inline in the entrypoint
dag before weaving. -/
def inlineNotifyTask : DagTask :=
  { name := "notify-email-exit-handler", template := "notify-email-exit-handler",
    dependencies := [], «when» := none }

/-- The entrypoint template of the sample compiled workflow. -/
def entryTemplate : Template :=
  { name := "helloflow", tasks := [startTask, endTask, inlineNotifyTask] }

/-- A sample document as produced by the external kfp compiler, before the
semaphore and weaving steps. -/
def baseWf : Workflow :=
  { entrypoint := "helloflow", onExit := none,
    templates := [entryTemplate,
                  { name := "start", tasks := [] },
                  { name := "end", tasks := [] }],
    synchronization := none }

/-- Configuration with no exit handlers. -/
def cfgPlain : PipelineConfig :=
  { selfName := "HelloFlow", notify := false, notifyOnSuccess := false,
    sqsUrlOnError := false, udfHandler := none }

/-- Configuration whose user-defined exit handler disables both run
conditions. -/
def cfgUdfBad : PipelineConfig :=
  { selfName := "HelloFlow", notify := false, notifyOnSuccess := false,
    sqsUrlOnError := false, udfHandler := some (false, false) }

/-- Configuration with all three exit handlers enabled. -/
def cfgAllHandlers : PipelineConfig :=
  { selfName := "HelloFlow", notify := true, notifyOnSuccess := false,
    sqsUrlOnError := true, udfHandler := some (true, true) }

/-- The result of weaving `cfgAllHandlers` into `baseWf`. -/
def wovenWf : Workflow :=
  { entrypoint := "helloflow", onExit := some "exit-handler",
    templates := [{ name := "helloflow", tasks := [startTask, endTask] },
                  { name := "start", tasks := [] },
                  { name := "end", tasks := [] },
                  { name := "exit-handler",
                    tasks := [{ name := "sqs-exit-handler", template := "sqs-exit-handler",
                                dependencies := [], «when» := some whenNotSucceeded },
                              { name := "notify-email-exit-handler",
                                template := "notify-email-exit-handler",
                                dependencies := [], «when» := some whenNotSucceeded },
                              { name := "user-defined-exit-handler",
                                template := "user-defined-exit-handler",
                                dependencies := [], «when» := none }] }],
    synchronization := none }

/-- A component requesting 8 vCPU and 4 GB, no accelerator, no GPU. -/
def bigCpuComponent : ComponentScheduling :=
  { acceleratorDeco := none, interruptibleDeco := false, hasGpu := false,
    cpuNumber := 8, memoryNumber := 4 }

/-- The semaphore reference for the sanitized name of `cfgPlain`. -/
def semHelloflow : SemaphoreRef :=
  { configMapName := "helloflow", key := "max_run_concurrency" }

/-- The workflow `run_workflow_on_argo` produces for `baseWf`, `cfgPlain`
and limit 5: the semaphore references the sanitized `self.name`. -/
def wfWithSemaphore : Workflow :=
  { baseWf with synchronization := some semHelloflow }

/-- The ConfigMap document emitted alongside `wfWithSemaphore`. -/
def cmForSemaphore : ConfigMapDoc :=
  { name := "helloflow", data := [("max_run_concurrency", "5")] }

end Aip

deriving instance DecidableEq for Except

namespace Aip

theorem foldl_max_pair (l : List Decorator) (a b : Nat) :
    l.foldl
      (fun acc d =>
        (Nat.max acc.1 d.step_task_retry_count.1,
         Nat.max acc.2 d.step_task_retry_count.2)) (a, b) =
      (l.foldl (fun x d => Nat.max x d.step_task_retry_count.1) a,
       l.foldl (fun x d => Nat.max x d.step_task_retry_count.2) b) := by
  induction l generalizing a b with
  | nil => rfl
  | cons d rest ih =>
    simp only [List.foldl]
    exact ih (Nat.max a d.step_task_retry_count.1) (Nat.max b d.step_task_retry_count.2)

theorem init_le_foldl_max (f : Decorator → Nat) (l : List Decorator) (a : Nat) :
    a ≤ l.foldl (fun x d => Nat.max x (f d)) a := by
  induction l generalizing a with
  | nil => exact Nat.le_refl a
  | cons d rest ih => exact le_trans (Nat.le_max_left a (f d)) (ih (Nat.max a (f d)))

theorem mem_le_foldl_max (f : Decorator → Nat) :
    ∀ (l : List Decorator) (a : Nat) (d : Decorator), d ∈ l →
      f d ≤ l.foldl (fun x y => Nat.max x (f y)) a := by
  intro l
  induction l with
  | nil => intro a d hd; cases hd
  | cons y rest ih =>
    intro a d hd
    rcases List.mem_cons.1 hd with h | h
    · subst h
      simp only [List.foldl]
      exact le_trans (Nat.le_max_right a (f d)) (init_le_foldl_max f rest _)
    · simp only [List.foldl]
      exact ih _ d h

/-- C2: the claim that `total_retries` is "the maximum total-retry count"
taken across the node's retry-capable decorators is false on the code.  On
a node with decorators reporting retry counts (2,3) and (5,0), the maximum
per-decorator total is 5, but `_get_retries` returns the sum of the
independent maxima, `5 + 3 = 8`. -/
theorem c2_counterexample :
    (getRetries c2CexNode).2 = 8 ∧
    specTotalRetriesMaxOfTotals c2CexNode = 5 ∧
    (getRetries c2CexNode).2 ≠ specTotalRetriesMaxOfTotals c2CexNode := by
  decide

/-- C2 (amended): `_get_retries` takes the maximum user-code-retry count
and the maximum error-retry count independently across all decorators of
the node, and returns them as `(max_user, max_user + max_error)` — not the
retry spec of a single winning decorator.  Consequently every decorator's
user-code-retry count, and every decorator's total, is dominated by the
component's fields; a node with user-code-retry counts 2 and 5 yields
`user_code_retries = 5` (see the witness). -/
theorem c2_retries_independent_maxima (node : FlowNode) :
    getRetries node =
      (maxUserCodeRetries node, maxUserCodeRetries node + maxErrorRetries node) ∧
    ∀ d ∈ node.decorators,
      d.step_task_retry_count.1 ≤ (getRetries node).1 ∧
      d.step_task_retry_count.1 + d.step_task_retry_count.2 ≤ (getRetries node).2 := by
  have heq : getRetries node =
      (maxUserCodeRetries node, maxUserCodeRetries node + maxErrorRetries node) := by
    unfold getRetries maxUserCodeRetries maxErrorRetries
    rw [foldl_max_pair]
  refine ⟨heq, fun d hd => ?_⟩
  have h1 : d.step_task_retry_count.1 ≤ maxUserCodeRetries node :=
    mem_le_foldl_max (fun d => d.step_task_retry_count.1) node.decorators 0 d hd
  have h2 : d.step_task_retry_count.2 ≤ maxErrorRetries node :=
    mem_le_foldl_max (fun d => d.step_task_retry_count.2) node.decorators 0 d hd
  rw [heq]
  exact ⟨h1, Nat.add_le_add h1 h2⟩

/-- Witness for C2: on the node with user-code-retry counts 2 and 5 the
component's `user_code_retries` is 5 (scenario D), and the theorem applies
to its decorators. -/
theorem c2_retries_witness :
    (getRetries c2CexNode).1 = 5 ∧
    (catchDeco 5 0).step_task_retry_count.1 ≤ (getRetries c2CexNode).1 :=
  ⟨by decide,
   ((c2_retries_independent_maxima c2CexNode).2 (catchDeco 5 0) (by decide)).1⟩

/-- C3: the claim that the backoff interval and factor come from the *last*
retry-kind decorator is false on the code: `_get_minutes_between_retries`
and `_get_retry_backoff_factor` read `retry_deco[0]`, the first one.  On a
node with two retry decorators (minutes 1 and 2, factors 2 and 3) the code
returns "1m" and 2 while the claim demands "2m" and 3. -/
theorem c3_counterexample :
    getMinutesBetweenRetries c3CexNode = some "1m" ∧
    specMinutesFromLastRetry c3CexNode = some "2m" ∧
    getMinutesBetweenRetries c3CexNode ≠ specMinutesFromLastRetry c3CexNode ∧
    getRetryBackoffFactor c3CexNode = some 2 ∧
    specBackoffFromLastRetry c3CexNode = some 3 ∧
    getRetryBackoffFactor c3CexNode ≠ specBackoffFromLastRetry c3CexNode := by
  decide

/-- C3 (amended): the backoff interval and backoff factor are taken from
the *first* retry-kind decorator present on the node — decorators after an
existing retry decorator never change the result — and both default to
`None` for a node with no retry-kind decorator. -/
theorem c3_backoff_from_first_retry (node : FlowNode) (extras : List Decorator) :
    ((∀ d ∈ node.decorators, d.name ≠ "retry") →
        getMinutesBetweenRetries node = none ∧ getRetryBackoffFactor node = none) ∧
    ((∃ d ∈ node.decorators, d.name = "retry") →
        getMinutesBetweenRetries
            { node with decorators := node.decorators ++ extras } =
          getMinutesBetweenRetries node ∧
        getRetryBackoffFactor
            { node with decorators := node.decorators ++ extras } =
          getRetryBackoffFactor node) := by
  constructor
  · intro h
    have hf : node.decorators.filter (fun d => d.name == "retry") = [] := by
      refine List.filter_eq_nil_iff.2 (fun d hd => ?_)
      simpa using h d hd
    simp [getMinutesBetweenRetries, getRetryBackoffFactor, hf]
  · rintro ⟨d, hd, hname⟩
    have hmem : d ∈ node.decorators.filter (fun x => x.name == "retry") :=
      List.mem_filter.2 ⟨hd, by simp [hname]⟩
    obtain ⟨d0, rest, hf⟩ :
        ∃ d0 rest, node.decorators.filter (fun x => x.name == "retry") = d0 :: rest := by
      cases hfe : node.decorators.filter (fun x => x.name == "retry") with
      | nil => rw [hfe] at hmem; cases hmem
      | cons a b => exact ⟨a, b, rfl⟩
    have happ :
        (node.decorators ++ extras).filter (fun x => x.name == "retry") =
          d0 :: (rest ++ extras.filter (fun x => x.name == "retry")) := by
      rw [List.filter_append, hf]
      rfl
    constructor
    · show getMinutesBetweenRetries
          { node with decorators := node.decorators ++ extras } = _
      unfold getMinutesBetweenRetries
      simp only [happ, hf]
    · show getRetryBackoffFactor
          { node with decorators := node.decorators ++ extras } = _
      unfold getRetryBackoffFactor
      simp only [happ, hf]

/-- Witness for C3 (amended): the node with two retry decorators keeps its
backoff fields when a further decorator is appended, and a node with no
retry decorator yields `None` for both. -/
theorem c3_backoff_witness :
    (getMinutesBetweenRetries
        { c3CexNode with decorators := c3CexNode.decorators ++ [catchDeco 1 1] } =
      getMinutesBetweenRetries c3CexNode) ∧
    getMinutesBetweenRetries (gTrivial.node "start") = none :=
  ⟨((c3_backoff_from_first_retry c3CexNode [catchDeco 1 1]).2
      ⟨retryDeco 0 0 (some (AttrVal.num 1)) 2, by decide, rfl⟩).1,
   ((c3_backoff_from_first_retry (gTrivial.node "start") []).1 (by decide)).1⟩

/-- C6: for a component with no accelerator decorator and no GPU in its
resource requirements, the container receives the fixed high-resource-pool
toleration exactly when its memory is at least 16 GB or its cpu is at least
8 vCPU; below both thresholds it receives no such toleration (the spot
toleration of interruptible steps is a different toleration).  The
thresholds are literals inside `_create_resource_based_node_type_toleration`,
not parameters. -/
theorem c6_resource_threshold_toleration (c : ComponentScheduling)
    (hacc : c.acceleratorDeco = none) (hgpu : c.hasGpu = false) :
    highResourceToleration ∈ setContainerTolerations c ↔
      16 ≤ c.memoryNumber ∨ 8 ≤ c.cpuNumber := by
  have hne : highResourceToleration ≠ spotToleration := by decide
  by_cases h : (16 : ℚ) ≤ c.memoryNumber ∨ (8 : ℚ) ≤ c.cpuNumber
  · have hcr : createResourceBasedNodeTypeToleration c.cpuNumber c.memoryNumber =
        some highResourceToleration := by
      simp only [createResourceBasedNodeTypeToleration]
      rw [if_pos h]
    simp [setContainerTolerations, hacc, hgpu, hcr, h]
  · have hcr : createResourceBasedNodeTypeToleration c.cpuNumber c.memoryNumber =
        none := by
      simp only [createResourceBasedNodeTypeToleration]
      rw [if_neg h]
    cases hi : c.interruptibleDeco <;>
      simp [setContainerTolerations, hacc, hgpu, hcr, hi, h, hne]

/-- Witness for C6: a component requesting 8 vCPU and 4 GB, with no
accelerator and no GPU, receives the high-resource toleration. -/
theorem c6_resource_threshold_witness :
    highResourceToleration ∈ setContainerTolerations bigCpuComponent :=
  (c6_resource_threshold_toleration bigCpuComponent rfl rfl).mpr
    (Or.inr (by simp [bigCpuComponent]))

theorem buildComponentsList_ok_mem (g : FlowGraph) :
    ∀ (l : List String) (res : List (String × AIPComponent)),
      buildComponentsList g l = Except.ok res →
      ∀ s ∈ l, ∃ comp, buildAipComponent (g.node s) = Except.ok comp := by
  intro l
  induction l with
  | nil => intro res h s hs; cases hs
  | cons x rest ih =>
    intro res h s hs
    simp only [buildComponentsList] at h
    cases hb : buildAipComponent (g.node x) with
    | error e => rw [hb] at h; simp at h
    | ok comp =>
      rw [hb] at h
      cases hr : buildComponentsList g rest with
      | error e => rw [hr] at h; simp at h
      | ok others =>
        rcases List.mem_cons.1 hs with rfl | hmem
        · exact ⟨comp, hb⟩
        · exact ih others hr s hmem

/-- C7: a node carrying a decorator whose class is in the fixed exclusion
set (`BatchDecorator`, `ScheduleDecorator`) makes `build_aip_component`
raise, so `_create_aip_components_from_graph` fails, and since the
components are built before the kfp compiler runs, `_create_workflow_yaml`
propagates the error for every configuration: no manifest value is ever
produced. -/
theorem c7_unsupported_decorator_is_fatal (g : FlowGraph) (s : String) (d : Decorator)
    (hs : s ∈ g.nodes) (hd : d ∈ (g.node s).decorators)
    (hcls : d.cls = DecoClass.batch ∨ d.cls = DecoClass.schedule) :
    (∃ e, createAipComponents g = Except.error e) ∧
    ∀ cfg baseW kind mrc nameArg,
      ∃ e, createWorkflowYaml g cfg baseW kind mrc nameArg = Except.error e := by
  have hbuild : ∀ comp, buildAipComponent (g.node s) ≠ Except.ok comp := by
    intro comp hok
    have hfind : ((g.node s).decorators.find? isUnsupportedDeco).isSome :=
      List.find?_isSome.2 ⟨d, hd, by rcases hcls with h | h <;> simp [isUnsupportedDeco, h]⟩
    unfold buildAipComponent at hok
    cases hm : (g.node s).decorators.find? isUnsupportedDeco with
    | none => rw [hm] at hfind; simp at hfind
    | some x => rw [hm] at hok; simp at hok
  have hca : ∀ res, createAipComponents g ≠ Except.ok res := by
    intro res hok
    obtain ⟨comp, hc⟩ := buildComponentsList_ok_mem g g.nodes res hok s hs
    exact hbuild comp hc
  cases hcae : createAipComponents g with
  | error e =>
    refine ⟨⟨e, rfl⟩, ?_⟩
    intro cfg baseW kind mrc nameArg
    refine ⟨e, ?_⟩
    unfold createWorkflowYaml
    rw [hcae]
  | ok res => exact absurd hcae (hca res)

/-- Witness for C7: the one-node graph whose step carries a
`BatchDecorator` fails component construction and workflow production. -/
theorem c7_unsupported_decorator_witness :
    (∃ e, createAipComponents gBatch = Except.error e) ∧
    (∃ e, createWorkflowYaml gBatch cfgPlain baseWf "Workflow" (some 5) none =
      Except.error e) :=
  ⟨(c7_unsupported_decorator_is_fatal gBatch "start" batchDeco (by decide) (by decide)
      (Or.inl rfl)).1,
   (c7_unsupported_decorator_is_fatal gBatch "start" batchDeco (by decide) (by decide)
      (Or.inl rfl)).2 cfgPlain baseWf "Workflow" (some 5) none⟩

/-- C9: a missing or non-positive run-concurrency limit makes `_config_map`
raise an `AIPException` before any ConfigMap document exists, so
`run_workflow_on_argo` never reaches the Argo client; and the workflow
carries a synchronization semaphore exactly when a positive limit is
configured. -/
theorem c9_nonpositive_concurrency_rejected :
    (∀ (n : String) (mrc : Option Int),
        (mrc = none ∨ ∃ v, mrc = some v ∧ v ≤ 0) →
        ∃ e, configMap n mrc = Except.error e) ∧
    (∀ (g : FlowGraph) (cfg : PipelineConfig) (baseW : Workflow) (mrc : Option Int),
        (mrc = none ∨ ∃ v, mrc = some v ∧ v ≤ 0) →
        ∀ r, runWorkflowOnArgo g cfg baseW mrc ≠ Except.ok r) ∧
    (∀ (w : Workflow) (mrc : Option Int) (nameArg : Option String) (selfName : String),
        w.synchronization = none →
        ((attachSynchronization w mrc nameArg selfName).synchronization.isSome ↔
          ∃ v, mrc = some v ∧ 0 < v)) := by
  have herr : ∀ (n : String) (mrc : Option Int),
      (mrc = none ∨ ∃ v, mrc = some v ∧ v ≤ 0) →
      ∃ e, configMap n mrc = Except.error e := by
    rintro n mrc (rfl | ⟨v, rfl, hv⟩)
    · exact ⟨_, rfl⟩
    · simp only [configMap]
      rw [if_pos hv]
      exact ⟨_, rfl⟩
  refine ⟨herr, ?_, ?_⟩
  · rintro g cfg baseW mrc hbad r hok
    unfold runWorkflowOnArgo at hok
    cases hcw : createWorkflowYaml g cfg baseW "Workflow" mrc none with
    | error e => rw [hcw] at hok; simp at hok
    | ok wf =>
      rw [hcw] at hok
      obtain ⟨e, he⟩ := herr (sanitizeK8sName cfg.selfName) mrc hbad
      rw [he] at hok
      simp at hok
  · rintro w mrc nameArg selfName hsync
    cases mrc with
    | none => simp [attachSynchronization, hsync]
    | some v =>
      by_cases hv : 0 < v
      · simp [attachSynchronization, hv]
      · simp [attachSynchronization, hv, hsync]

/-- Witness for C9: the limit 0 is rejected by `_config_map` and by
`run_workflow_on_argo`, and attaching it to a workflow yields no
semaphore. -/
theorem c9_nonpositive_concurrency_witness :
    (∃ e, configMap "helloflow" (some 0) = Except.error e) ∧
    (∀ r, runWorkflowOnArgo gTrivial cfgPlain baseWf (some 0) ≠ Except.ok r) ∧
    ((attachSynchronization baseWf (some 0) none "HelloFlow").synchronization.isSome ↔
      ∃ v, (some (0 : Int)) = some v ∧ 0 < v) :=
  ⟨c9_nonpositive_concurrency_rejected.1 "helloflow" (some 0)
      (Or.inr ⟨0, rfl, by decide⟩),
   c9_nonpositive_concurrency_rejected.2.1 gTrivial cfgPlain baseWf (some 0)
      (Or.inr ⟨0, rfl, by decide⟩),
   c9_nonpositive_concurrency_rejected.2.2 baseWf (some 0) none "HelloFlow" rfl⟩

theorem attach_fields_eq (w : Workflow) (mrc : Option Int) (nameArg : Option String)
    (selfName : String) :
    (attachSynchronization w mrc nameArg selfName).templates = w.templates ∧
    (attachSynchronization w mrc nameArg selfName).entrypoint = w.entrypoint := by
  cases mrc with
  | none => exact ⟨rfl, rfl⟩
  | some c =>
    by_cases hc : 0 < c
    · simp [attachSynchronization, hc]
    · simp [attachSynchronization, hc]

/-- C4: when a user-defined exit handler is configured with both
`on_success` and `on_failure` false, `_create_workflow_yaml` raises the
configuration error during the weave, for every graph whose components
build, every base document with an entrypoint template, and every
concurrency/name argument: no manifest is returned and the handler is not
silently dropped. -/
theorem c4_udf_both_false_is_config_error (g : FlowGraph) (cfg : PipelineConfig)
    (baseW : Workflow) (mrc : Option Int) (nameArg : Option String)
    (hudf : cfg.udfHandler = some (false, false))
    (hcomp : ∃ comps, createAipComponents g = Except.ok comps)
    (hentry : (findTemplate baseW baseW.entrypoint).isSome = true) :
    createWorkflowYaml g cfg baseW "Workflow" mrc nameArg =
      Except.error "on_success and on_failure cannot both be False" := by
  obtain ⟨comps, hca⟩ := hcomp
  have hcre : exitHandlerCreated cfg = true := by
    simp [exitHandlerCreated, hudf]
  simp only [createWorkflowYaml, hca, true_or, if_true]
  have hT := (attach_fields_eq baseW mrc nameArg cfg.selfName).1
  have hE := (attach_fields_eq baseW mrc nameArg cfg.selfName).2
  have hft : (findTemplate (attachSynchronization baseW mrc nameArg cfg.selfName)
      (attachSynchronization baseW mrc nameArg cfg.selfName).entrypoint).isSome = true := by
    unfold findTemplate
    rw [hT, hE]
    exact hentry
  have hu : udfExitTasks cfg.udfHandler =
      Except.error "on_success and on_failure cannot both be False" := by
    rw [hudf]
    rfl
  unfold weaveExitHandler
  rw [if_neg (by simp [hcre])]
  cases hfe : findTemplate (attachSynchronization baseW mrc nameArg cfg.selfName)
      (attachSynchronization baseW mrc nameArg cfg.selfName).entrypoint with
  | none => rw [hfe] at hft; simp at hft
  | some entry => simp [hu]

/-- Witness for C4: the concrete configuration with
`on_success=false, on_failure=false` aborts workflow production with the
configuration error. -/
theorem c4_udf_both_false_witness :
    createWorkflowYaml gTrivial cfgUdfBad baseWf "Workflow" (some 5) none =
      Except.error "on_success and on_failure cannot both be False" :=
  c4_udf_both_false_is_config_error gTrivial cfgUdfBad baseWf (some 5) none rfl
    ⟨[("start", { step_name := "start", user_code_retries := 0, total_retries := 0,
                  minutes_between_retries := none, retry_backoff_factor := none })], rfl⟩
    rfl

theorem udfExitTasks_names (u : Option (Bool × Bool)) (uts : List DagTask)
    (h : udfExitTasks u = Except.ok uts) :
    ∀ t ∈ uts, t.name = "user-defined-exit-handler" := by
  intro t ht
  cases u with
  | none =>
    have h2 := Except.ok.inj h
    rw [← h2] at ht
    cases ht
  | some p =>
    obtain ⟨a, b⟩ := p
    cases a <;> cases b
    · simp [udfExitTasks] at h
    · have h2 := Except.ok.inj h
      rw [← h2] at ht
      rcases List.mem_singleton.1 ht with rfl
      rfl
    · have h2 := Except.ok.inj h
      rw [← h2] at ht
      rcases List.mem_singleton.1 ht with rfl
      rfl
    · have h2 := Except.ok.inj h
      rw [← h2] at ht
      rcases List.mem_singleton.1 ht with rfl
      rfl

theorem find_replaceFirst (n : String) (y : Template) (tail : List Template)
    (hy : y.name = n) :
    ∀ l : List Template, (l.find? (fun t => t.name == n)).isSome = true →
      (replaceFirstTemplate l n y ++ tail).find? (fun t => t.name == n) = some y := by
  intro l
  induction l with
  | nil => intro hex; simp at hex
  | cons t rest ih =>
    intro hex
    by_cases ht : (t.name == n) = true
    · simp only [replaceFirstTemplate, if_pos ht, List.cons_append]
      exact List.find?_cons_of_pos _ (by simp [hy])
    · have hex2 : (rest.find? (fun t => t.name == n)).isSome = true := by
        rw [List.find?_cons_of_neg _ (by simpa using ht)] at hex
        exact hex
      simp only [replaceFirstTemplate, if_neg ht, List.cons_append]
      rw [List.find?_cons_of_neg _ (by simpa using ht)]
      exact ih hex2

/-- C5: whenever at least one exit handler is configured and the weave
succeeds, the transformed document (a) keeps its entrypoint but removes
every exit-handler-named task from the entrypoint template's dag task list,
preserving the remaining tasks, (b) sets `spec.onExit` to `exit-handler`,
and (c) appends a dedicated `exit-handler` template whose tasks are exactly
the handler tasks — so exit-handler nodes execute only from the
on-completion sub-DAG root, never from the entrypoint. -/
theorem c5_exit_handlers_detached (w : Workflow) (cfg : PipelineConfig)
    (entry : Template) (w2 : Workflow)
    (hcre : exitHandlerCreated cfg = true)
    (hentry : findTemplate w w.entrypoint = some entry)
    (hok : weaveExitHandler w cfg = Except.ok w2) :
    w2.entrypoint = w.entrypoint ∧
    w2.onExit = some "exit-handler" ∧
    findTemplate w2 w2.entrypoint =
      some { name := entry.name,
             tasks := entry.tasks.filter
               (fun t => !(containsSubstr t.name "exit-handler")) } ∧
    (∀ t ∈ entry.tasks.filter (fun t => !(containsSubstr t.name "exit-handler")),
        containsSubstr t.name "exit-handler" = false ∧ t ∈ entry.tasks) ∧
    (∃ eh, w2.templates.getLast? = some eh ∧ eh.name = "exit-handler" ∧
        ∀ t ∈ eh.tasks,
          t.name = "sqs-exit-handler" ∨ t.name = "notify-email-exit-handler" ∨
          t.name = "user-defined-exit-handler") := by
  have hen : entry.name = w.entrypoint := by
    have := List.find?_some hentry
    simpa using this
  have hex : (w.templates.find? (fun t => t.name == w.entrypoint)).isSome = true := by
    rw [show w.templates.find? (fun t => t.name == w.entrypoint) = some entry from hentry]
    rfl
  unfold weaveExitHandler at hok
  rw [if_neg (by simp [hcre])] at hok
  rw [hentry] at hok
  cases hu : udfExitTasks cfg.udfHandler with
  | error e => rw [hu] at hok; simp at hok
  | ok uts =>
    rw [hu] at hok
    have hw2 := Except.ok.inj hok
    subst hw2
    refine ⟨rfl, rfl, ?_, ?_, ?_⟩
    · exact find_replaceFirst w.entrypoint _ _ (by simpa using hen) w.templates hex
    · intro t ht
      have h2 := List.mem_filter.1 ht
      exact ⟨by simpa using h2.2, h2.1⟩
    · refine ⟨_, List.getLast?_concat _, rfl, ?_⟩
      intro t ht
      rcases List.mem_append.1 ht with h1 | h3
      · rcases List.mem_append.1 h1 with hs | hn
        · left
          revert hs
          cases hq : cfg.sqsUrlOnError <;> intro hs
          · simp at hs
          · rcases List.mem_singleton.1 (by simpa using hs) with rfl
            rfl
        · right; left
          revert hn
          cases hq : cfg.notify <;> intro hn
          · simp at hn
          · rcases List.mem_singleton.1 (by simpa using hn) with rfl
            rfl
      · exact Or.inr (Or.inr (udfExitTasks_names cfg.udfHandler uts hu t h3))

/-- Witness for C5: weaving the configuration with all three handlers into
the sample document detaches the inline `notify-email-exit-handler` task and
produces the dedicated `exit-handler` template. -/
theorem c5_exit_handlers_witness :
    wovenWf.onExit = some "exit-handler" ∧
    findTemplate wovenWf wovenWf.entrypoint =
      some { name := entryTemplate.name,
             tasks := entryTemplate.tasks.filter
               (fun t => !(containsSubstr t.name "exit-handler")) } :=
  ⟨(c5_exit_handlers_detached baseWf cfgAllHandlers entryTemplate wovenWf rfl rfl
      (by decide)).2.1,
   (c5_exit_handlers_detached baseWf cfgAllHandlers entryTemplate wovenWf rfl rfl
      (by decide)).2.2.1⟩

theorem weave_sync_eq (w : Workflow) (cfg : PipelineConfig) (w2 : Workflow)
    (h : weaveExitHandler w cfg = Except.ok w2) :
    w2.synchronization = w.synchronization := by
  unfold weaveExitHandler at h
  by_cases hcre : exitHandlerCreated cfg = false
  · rw [if_pos hcre] at h
    injection h with h
    rw [← h]
  · rw [if_neg hcre] at h
    cases hft : findTemplate w w.entrypoint with
    | none => rw [hft] at h; simp at h
    | some entry =>
      rw [hft] at h
      cases hu : udfExitTasks cfg.udfHandler with
      | error e => rw [hu] at h; simp at h
      | ok uts =>
        rw [hu] at h
        have h2 := Except.ok.inj h
        rw [← h2]

/-- C10: whenever `run_workflow_on_argo` succeeds with a configured limit,
the semaphore attached to the workflow and the emitted ConfigMap agree: the
`configMapKeyRef` name and the ConfigMap's metadata name are both the
k8s-sanitized workflow name, the semaphore key `max_run_concurrency` is
present in the ConfigMap's data, and its value is the decimal string of the
limit. -/
theorem c10_semaphore_configmap_agree (g : FlowGraph) (cfg : PipelineConfig)
    (baseW : Workflow) (c : Int) (wf : Workflow) (cm : ConfigMapDoc)
    (hrun : runWorkflowOnArgo g cfg baseW (some c) = Except.ok (wf, cm)) :
    ∃ sem, wf.synchronization = some sem ∧
      sem.configMapName = sanitizeK8sName cfg.selfName ∧
      cm.name = sanitizeK8sName cfg.selfName ∧
      sem.key = "max_run_concurrency" ∧
      cm.data.lookup "max_run_concurrency" = some (toString c) := by
  unfold runWorkflowOnArgo at hrun
  cases hcw : createWorkflowYaml g cfg baseW "Workflow" (some c) none with
  | error e => rw [hcw] at hrun; simp at hrun
  | ok wf0 =>
    rw [hcw] at hrun
    cases hcm : configMap (sanitizeK8sName cfg.selfName) (some c) with
    | error e => rw [hcm] at hrun; simp at hrun
    | ok cm0 =>
      rw [hcm] at hrun
      have hpair := Except.ok.inj hrun
      have hwf : wf0 = wf := congrArg Prod.fst hpair
      have hcm2 : cm0 = cm := congrArg Prod.snd hpair
      simp only [configMap] at hcm
      by_cases hc : c ≤ 0
      · rw [if_pos hc] at hcm; simp at hcm
      · rw [if_neg hc] at hcm
        have hcm0 : cm0 = { name := sanitizeK8sName cfg.selfName,
                            data := [("max_run_concurrency", toString c)] } :=
          (Except.ok.inj hcm).symm
        cases hcae : createAipComponents g with
        | error e =>
          simp only [createWorkflowYaml, hcae] at hcw
          exact absurd hcw (by simp)
        | ok comps =>
          simp only [createWorkflowYaml, hcae, if_pos (Or.inl rfl)] at hcw
          have hsync := weave_sync_eq _ cfg wf0 hcw
          have hatt : (attachSynchronization baseW (some c) none cfg.selfName).synchronization =
              some { configMapName := sanitizeK8sName cfg.selfName,
                     key := "max_run_concurrency" } := by
            simp [attachSynchronization, not_le.1 hc]
          refine ⟨{ configMapName := sanitizeK8sName cfg.selfName,
                    key := "max_run_concurrency" }, ?_, rfl, ?_, rfl, ?_⟩
          · rw [← hwf, hsync, hatt]
          · rw [← hcm2, hcm0]
          · rw [← hcm2, hcm0]
            simp [List.lookup]

theorem walk_visited_le (g : FlowGraph) :
    ∀ (fuel : Nat) (call : WalkCall) (visited v2 : List String),
      walk g fuel call visited = some v2 → visited <+: v2 := by
  intro fuel
  induction fuel with
  | zero =>
    intro call visited v2 h
    simp [walk] at h
  | succ fuel ih =>
    intro call visited v2 h
    cases call with
    | node name =>
      by_cases hm : name ∈ visited
      · simp only [walk, if_pos hm, Option.some.injEq] at h
        subst h
        exact List.prefix_rfl
      · by_cases hty : (g.node name).type = "foreach"
        · cases ho : (g.node name).out_funcs with
          | nil => simp [walk, if_neg hm, if_pos hty, ho] at h
          | cons next tl =>
            cases hw1 : walk g fuel (WalkCall.node next) (visited ++ [name]) with
            | none => simp [walk, if_neg hm, if_pos hty, ho, hw1] at h
            | some vb =>
              cases hmj : (g.node name).matching_join with
              | none => simp [walk, if_neg hm, if_pos hty, ho, hw1, hmj] at h
              | some j2 =>
                simp only [walk, if_neg hm, if_pos hty, ho, hw1, hmj] at h
                exact ((List.prefix_append visited [name]).trans
                  (ih _ _ _ hw1)).trans (ih _ _ _ h)
        · simp only [walk, if_neg hm, if_neg hty] at h
          exact (List.prefix_append visited [name]).trans (ih _ _ _ h)
    | children cs =>
      cases cs with
      | nil =>
        simp only [walk, Option.some.injEq] at h
        subst h
        exact List.prefix_rfl
      | cons c rest =>
        by_cases hcj : (g.node c).type = "join"
        · cases hsp : (g.node c).split_parents.getLast? with
          | none => simp [walk, if_pos hcj, hsp] at h
          | some sp =>
            by_cases hfe : (g.node sp).type = "foreach"
            · simp only [walk, if_pos hcj, hsp, if_pos hfe, Option.some.injEq] at h
              subst h
              exact List.prefix_rfl
            · cases hw1 : walk g fuel (WalkCall.node c) visited with
              | none => simp [walk, if_pos hcj, hsp, if_neg hfe, hw1] at h
              | some vmid =>
                simp only [walk, if_pos hcj, hsp, if_neg hfe, hw1] at h
                exact (ih _ _ _ hw1).trans (ih _ _ _ h)
        · cases hw1 : walk g fuel (WalkCall.node c) visited with
          | none => simp [walk, if_neg hcj, hw1] at h
          | some vmid =>
            simp only [walk, if_neg hcj, hw1] at h
            exact (ih _ _ _ hw1).trans (ih _ _ _ h)

theorem walk_node_mem (g : FlowGraph) :
    ∀ (fuel : Nat) (name : String) (visited v2 : List String),
      walk g fuel (WalkCall.node name) visited = some v2 → name ∈ v2 := by
  intro fuel name visited v2 h
  cases fuel with
  | zero => simp [walk] at h
  | succ fuel =>
    by_cases hm : name ∈ visited
    · simp only [walk, if_pos hm, Option.some.injEq] at h
      subst h
      exact hm
    · have hv1 : name ∈ visited ++ [name] := by simp
      by_cases hty : (g.node name).type = "foreach"
      · cases ho : (g.node name).out_funcs with
        | nil => simp [walk, if_neg hm, if_pos hty, ho] at h
        | cons next tl =>
          cases hw1 : walk g fuel (WalkCall.node next) (visited ++ [name]) with
          | none => simp [walk, if_neg hm, if_pos hty, ho, hw1] at h
          | some vb =>
            cases hmj : (g.node name).matching_join with
            | none => simp [walk, if_neg hm, if_pos hty, ho, hw1, hmj] at h
            | some j2 =>
              simp only [walk, if_neg hm, if_pos hty, ho, hw1, hmj] at h
              exact (walk_visited_le g fuel _ _ _ h).subset
                ((walk_visited_le g fuel _ _ _ hw1).subset hv1)
      · simp only [walk, if_neg hm, if_neg hty] at h
        exact (walk_visited_le g fuel _ _ _ h).subset hv1

theorem walk_nodup (g : FlowGraph) :
    ∀ (fuel : Nat) (call : WalkCall) (visited v2 : List String),
      walk g fuel call visited = some v2 → visited.Nodup → v2.Nodup := by
  intro fuel
  induction fuel with
  | zero =>
    intro call visited v2 h _
    simp [walk] at h
  | succ fuel ih =>
    intro call visited v2 h hnd
    cases call with
    | node name =>
      by_cases hm : name ∈ visited
      · simp only [walk, if_pos hm, Option.some.injEq] at h
        subst h
        exact hnd
      · have hnd1 : (visited ++ [name]).Nodup := by simp [List.nodup_append, hnd, hm]
        by_cases hty : (g.node name).type = "foreach"
        · cases ho : (g.node name).out_funcs with
          | nil => simp [walk, if_neg hm, if_pos hty, ho] at h
          | cons next tl =>
            cases hw1 : walk g fuel (WalkCall.node next) (visited ++ [name]) with
            | none => simp [walk, if_neg hm, if_pos hty, ho, hw1] at h
            | some vb =>
              cases hmj : (g.node name).matching_join with
              | none => simp [walk, if_neg hm, if_pos hty, ho, hw1, hmj] at h
              | some j2 =>
                simp only [walk, if_neg hm, if_pos hty, ho, hw1, hmj] at h
                exact ih _ _ _ h (ih _ _ _ hw1 hnd1)
        · simp only [walk, if_neg hm, if_neg hty] at h
          exact ih _ _ _ h hnd1
    | children cs =>
      cases cs with
      | nil =>
        simp only [walk, Option.some.injEq] at h
        subst h
        exact hnd
      | cons c rest =>
        by_cases hcj : (g.node c).type = "join"
        · cases hsp : (g.node c).split_parents.getLast? with
          | none => simp [walk, if_pos hcj, hsp] at h
          | some sp =>
            by_cases hfe : (g.node sp).type = "foreach"
            · simp only [walk, if_pos hcj, hsp, if_pos hfe, Option.some.injEq] at h
              subst h
              exact hnd
            · cases hw1 : walk g fuel (WalkCall.node c) visited with
              | none => simp [walk, if_pos hcj, hsp, if_neg hfe, hw1] at h
              | some vmid =>
                simp only [walk, if_pos hcj, hsp, if_neg hfe, hw1] at h
                exact ih _ _ _ h (ih _ _ _ hw1 hnd)
        · cases hw1 : walk g fuel (WalkCall.node c) visited with
          | none => simp [walk, if_neg hcj, hw1] at h
          | some vmid =>
            simp only [walk, if_neg hcj, hw1] at h
            exact ih _ _ _ h (ih _ _ _ hw1 hnd)

theorem walk_foreach_join (g : FlowGraph) :
    ∀ (fuel : Nat) (call : WalkCall) (visited v2 : List String),
      walk g fuel call visited = some v2 →
      ∀ f, (g.node f).type = "foreach" → f ∈ v2 → f ∉ visited →
        ∀ j, (g.node f).matching_join = some j → j ∈ v2 := by
  intro fuel
  induction fuel with
  | zero =>
    intro call visited v2 h
    simp [walk] at h
  | succ fuel ih =>
    intro call visited v2 h f hfty hfv hfnv j hjm
    cases call with
    | node name =>
      by_cases hm : name ∈ visited
      · simp only [walk, if_pos hm, Option.some.injEq] at h
        subst h
        exact absurd hfv hfnv
      · by_cases hty : (g.node name).type = "foreach"
        · cases ho : (g.node name).out_funcs with
          | nil => simp [walk, if_neg hm, if_pos hty, ho] at h
          | cons next tl =>
            cases hw1 : walk g fuel (WalkCall.node next) (visited ++ [name]) with
            | none => simp [walk, if_neg hm, if_pos hty, ho, hw1] at h
            | some vb =>
              cases hmj : (g.node name).matching_join with
              | none => simp [walk, if_neg hm, if_pos hty, ho, hw1, hmj] at h
              | some j2 =>
                simp only [walk, if_neg hm, if_pos hty, ho, hw1, hmj] at h
                by_cases hfn : f = name
                · subst hfn
                  obtain rfl : j = j2 := Option.some.inj (hjm.symm.trans hmj)
                  exact walk_node_mem g fuel _ _ _ h
                · have hfnv1 : f ∉ visited ++ [name] := by
                    simp [List.mem_append, hfnv, hfn]
                  by_cases hfb : f ∈ vb
                  · exact (walk_visited_le g fuel _ _ _ h).subset
                      (ih _ _ _ hw1 f hfty hfb hfnv1 j hjm)
                  · exact ih _ _ _ h f hfty hfv hfb j hjm
        · simp only [walk, if_neg hm, if_neg hty] at h
          by_cases hfn : f = name
          · subst hfn
            exact absurd hfty hty
          · have hfnv1 : f ∉ visited ++ [name] := by
              simp [List.mem_append, hfnv, hfn]
            exact ih _ _ _ h f hfty hfv hfnv1 j hjm
    | children cs =>
      cases cs with
      | nil =>
        simp only [walk, Option.some.injEq] at h
        subst h
        exact absurd hfv hfnv
      | cons c rest =>
        by_cases hcj : (g.node c).type = "join"
        · cases hsp : (g.node c).split_parents.getLast? with
          | none => simp [walk, if_pos hcj, hsp] at h
          | some sp =>
            by_cases hfe : (g.node sp).type = "foreach"
            · simp only [walk, if_pos hcj, hsp, if_pos hfe, Option.some.injEq] at h
              subst h
              exact absurd hfv hfnv
            · cases hw1 : walk g fuel (WalkCall.node c) visited with
              | none => simp [walk, if_pos hcj, hsp, if_neg hfe, hw1] at h
              | some vmid =>
                simp only [walk, if_pos hcj, hsp, if_neg hfe, hw1] at h
                by_cases hfmid : f ∈ vmid
                · exact (walk_visited_le g fuel _ _ _ h).subset
                    (ih _ _ _ hw1 f hfty hfmid hfnv j hjm)
                · exact ih _ _ _ h f hfty hfv hfmid j hjm
        · cases hw1 : walk g fuel (WalkCall.node c) visited with
          | none => simp [walk, if_neg hcj, hw1] at h
          | some vmid =>
            simp only [walk, if_neg hcj, hw1] at h
            by_cases hfmid : f ∈ vmid
            · exact (walk_visited_le g fuel _ _ _ h).subset
                (ih _ _ _ hw1 f hfty hfmid hfnv j hjm)
            · exact ih _ _ _ h f hfty hfv hfmid j hjm

/-- C1: on any run of the `build_kfp_dag` walk from the start node that
completes without a runtime error, every node is compiled at most once (the
`visited` set guarantee), and for every foreach node that was compiled its
matching join appears exactly once in the emitted output — the join is
compiled once after the `ParallelFor` construct closes, no matter how many
branches lead into it, because recursion from a branch halts at a join
whose last split-ancestor is a foreach. -/
theorem c1_foreach_join_compiled_once (g : FlowGraph) (fuel : Nat)
    (emitted : List String) (f j : String)
    (hw : walk g fuel (WalkCall.node "start") [] = some emitted)
    (hf : f ∈ emitted) (hty : (g.node f).type = "foreach")
    (hj : (g.node f).matching_join = some j) :
    emitted.count j = 1 ∧ ∀ n : String, emitted.count n ≤ 1 := by
  have hnd : emitted.Nodup := walk_nodup g fuel _ _ _ hw List.nodup_nil
  have hjoin : j ∈ emitted :=
    walk_foreach_join g fuel _ _ _ hw f hty hf (List.not_mem_nil f) j hj
  exact ⟨List.count_eq_one_of_mem hnd hjoin,
         fun n => List.nodup_iff_count_le_one.1 hnd n⟩

/-- Witness for C1: compiling the scenario B graph emits
`start, split, process, aggregate, end`; the foreach's matching join
`aggregate` appears exactly once. -/
theorem c1_foreach_join_witness :
    gForeachEmitted.count "aggregate" = 1 ∧
    ∀ n : String, gForeachEmitted.count n ≤ 1 :=
  c1_foreach_join_compiled_once gForeach 32 gForeachEmitted "split" "aggregate"
    (by decide) (by decide) (by decide) (by decide)

theorem wireNodeParents_eq (step : String) (visited vro : List String) :
    ∀ (parents : List String) (acc : List (String × String) × List (String × String)),
      step ∈ visited → (∀ p ∈ parents, p ∈ visited) →
      wireNodeParents step parents visited vro acc =
        some (acc.1 ++ parents.map (fun p => (step, p)),
              acc.2 ++ if step ∈ vro then parents.map (fun p => (step, p)) else []) := by
  intro parents
  induction parents with
  | nil =>
    intro acc _ _
    simp [wireNodeParents]
  | cons p rest ih =>
    intro acc hstep hp
    have hpv : p ∈ visited := hp p (List.mem_cons_self p rest)
    simp only [wireNodeParents]
    rw [if_pos ⟨hstep, hpv⟩]
    rw [ih _ hstep (fun q hq => hp q (List.mem_cons_of_mem p hq))]
    by_cases hv : step ∈ vro
    · simp [hv, List.append_assoc]
    · simp [hv]

theorem wireAll_eq (g : FlowGraph) (visited vro : List String) :
    ∀ (l : List String) (acc : List (String × String) × List (String × String)),
      (∀ s ∈ l, s ∈ visited ∧ ∀ p ∈ (g.node s).in_funcs, p ∈ visited) →
      wireAll g visited vro l acc =
        some (acc.1 ++ wireSpec g l, acc.2 ++ wireResSpec g vro l) := by
  intro l
  induction l with
  | nil =>
    intro acc _
    simp [wireAll, wireSpec, wireResSpec]
  | cons s rest ih =>
    intro acc hcov
    have hself := hcov s (List.mem_cons_self s rest)
    simp only [wireAll]
    rw [wireNodeParents_eq s visited vro (g.node s).in_funcs acc hself.1 hself.2]
    dsimp only
    rw [ih _ (fun x hx => hcov x (List.mem_cons_of_mem s hx))]
    simp [wireSpec, wireResSpec, List.append_assoc]

theorem mem_wireSpec (g : FlowGraph) (c p : String) :
    ∀ l : List String, ((c, p) ∈ wireSpec g l ↔ c ∈ l ∧ p ∈ (g.node c).in_funcs) := by
  intro l
  induction l with
  | nil => simp [wireSpec]
  | cons s rest ih =>
    simp only [wireSpec, List.mem_append, List.mem_map, ih, List.mem_cons]
    constructor
    · rintro (⟨q, hq, heq⟩ | ⟨hc, hp2⟩)
      · have hsc : s = c := congrArg Prod.fst heq
        have hqp : q = p := congrArg Prod.snd heq
        subst hsc
        subst hqp
        exact ⟨Or.inl rfl, hq⟩
      · exact ⟨Or.inr hc, hp2⟩
    · rintro ⟨hc | hc, hp2⟩
      · subst hc
        exact Or.inl ⟨p, hp2, rfl⟩
      · exact Or.inr ⟨hc, hp2⟩

theorem mem_wireResSpec (g : FlowGraph) (vro : List String) (c p : String) :
    ∀ l : List String,
      ((c, p) ∈ wireResSpec g vro l ↔ c ∈ l ∧ c ∈ vro ∧ p ∈ (g.node c).in_funcs) := by
  intro l
  induction l with
  | nil => simp [wireResSpec]
  | cons s rest ih =>
    by_cases hs : s ∈ vro
    · simp only [wireResSpec, if_pos hs, List.mem_append, List.mem_map, ih, List.mem_cons]
      constructor
      · rintro (⟨q, hq, heq⟩ | ⟨hc, hv, hp2⟩)
        · have hsc : s = c := congrArg Prod.fst heq
          have hqp : q = p := congrArg Prod.snd heq
          subst hsc
          subst hqp
          exact ⟨Or.inl rfl, hs, hq⟩
        · exact ⟨Or.inr hc, hv, hp2⟩
      · rintro ⟨hc | hc, hv, hp2⟩
        · subst hc
          exact Or.inl ⟨p, hp2, rfl⟩
        · exact Or.inr ⟨hc, hv, hp2⟩
    · simp only [wireResSpec, if_neg hs, List.nil_append, ih, List.mem_cons]
      constructor
      · rintro ⟨hc, hv, hp2⟩
        exact ⟨Or.inr hc, hv, hp2⟩
      · rintro ⟨hc | hc, hv, hp2⟩
        · subst hc
          exact absurd hv hs
        · exact ⟨hc, hv, hp2⟩

/-- C8: when every node and every parent referenced by an edge has a
compiled op (`visited` covers them — otherwise the Python pass raises a
`KeyError`), the wiring pass succeeds and produces one `after` edge per
input edge over the full node id space, propagating each edge to the
child's volume-provisioning resource op when one exists; for a graph with
no split/foreach nodes these `after` edges are the compiled DAG's
dependency edges, exactly the image of the input graph's edges under the
(identity) node-name mapping. -/
theorem c8_dependency_wiring (g : FlowGraph) (visited vro : List String)
    (hcov : ∀ s ∈ g.nodes, s ∈ visited ∧ ∀ p ∈ (g.node s).in_funcs, p ∈ visited)
    (_hnofe : ∀ s ∈ g.nodes, (g.node s).type ≠ "foreach") :
    wireDependencies g visited vro =
      some (wireSpec g g.nodes, wireResSpec g vro g.nodes) ∧
    (∀ c p, ((c, p) ∈ wireSpec g g.nodes ↔ c ∈ g.nodes ∧ p ∈ (g.node c).in_funcs)) ∧
    (∀ c p, ((c, p) ∈ wireResSpec g vro g.nodes ↔
        (c, p) ∈ wireSpec g g.nodes ∧ c ∈ vro)) := by
  refine ⟨?_, fun c p => mem_wireSpec g c p g.nodes, fun c p => ?_⟩
  · have h := wireAll_eq g visited vro g.nodes ([], []) hcov
    simpa [wireDependencies] using h
  · rw [mem_wireResSpec g vro c p g.nodes, mem_wireSpec g c p g.nodes]
    constructor
    · rintro ⟨h1, h2, h3⟩
      exact ⟨⟨h1, h3⟩, h2⟩
    · rintro ⟨⟨h1, h3⟩, h2⟩
      exact ⟨h1, h2, h3⟩

/-- Witness for C8: the wiring pass on the 3-node linear graph (with a
resource op on `middle`) produces exactly the input edges. -/
theorem c8_wiring_witness :
    wireDependencies gLinear ["start", "middle", "end"] ["middle"] =
      some (wireSpec gLinear gLinear.nodes,
            wireResSpec gLinear ["middle"] gLinear.nodes) :=
  (c8_dependency_wiring gLinear ["start", "middle", "end"] ["middle"] (by decide)
    (by decide)).1

/-- Witness for C10: the concrete run with limit 5 produces the agreeing
semaphore and ConfigMap for the sanitized name `helloflow`. -/
theorem c10_semaphore_witness :
    ∃ sem, wfWithSemaphore.synchronization = some sem ∧
      sem.configMapName = sanitizeK8sName cfgPlain.selfName ∧
      cmForSemaphore.name = sanitizeK8sName cfgPlain.selfName ∧
      sem.key = "max_run_concurrency" ∧
      cmForSemaphore.data.lookup "max_run_concurrency" = some (toString (5 : Int)) :=
  c10_semaphore_configmap_agree gTrivial cfgPlain baseWf 5 wfWithSemaphore cmForSemaphore
    (by decide)

end Aip
